import Mathlib

/-!
Shallow embedding of `src/SpatialDE/svca.py`, the public entry points
`test_spatial_interactions` and `fit_spatial_interactions` of the SpatialDE
SVCA module, together with the parts of the internal model layer that the
claims need.

Numeric scalars are modelled as rationals (`ℚ`) except where real-valued
analysis (geometric spacing of length-scales, the sigmoid bijector) requires
`ℝ`.  Gene names are modelled as natural numbers; only their decidable
equality and linear order matter to the embedded code.
-/

/-- Per-gene persisted kernel-parameter record: one row of the structured
array stored in `adata.varm` under key `svca` (the tuple of parameter values
in sorted-key order, as assembled in `test_spatial_interactions`). -/
abbrev ParamVec := List ℚ

/-- The slots of the `AnnData` container that `svca.py` reads or writes: the
four persisted SVCA fields, the gene names (`var_names`), and an opaque
`rest` standing for every other slot of the container (`X`, the spatial
coordinates, all other `obsm`/`uns`/`varm` entries), which the entry points
never modify. -/
structure AnnData where
  var_names : List ℕ
  varm_svca : Option (List ParamVec)
  obsm_svca_sizefactors : Option (List ℚ)
  uns_svca_ncomponents : Option ℤ
  uns_svca_ard : Option Bool
  rest : ℕ

/-- One row of the results table built by `test_spatial_interactions`
(the `time` column is irrelevant to the claims and omitted). -/
structure TestRow where
  gene : ℕ
  pval : ℚ

/-- The post-loop clipping pass of `test_spatial_interactions`
(`results.loc[results.pval > 1, "pval"] = 1`): a p-value strictly greater
than 1 is replaced by exactly 1, all other values pass unchanged. -/
def clipPval (p : ℚ) : ℚ := if 1 < p then 1 else p

/-- The results table of `test_spatial_interactions`: the per-gene rows after
the clipping pass, and the `padj` column obtained by applying the
multiple-testing adjustment to the clipped `pval` column. -/
structure TestTable where
  rows : List TestRow
  padj : List ℚ

/-- Assembly of the results table of `test_spatial_interactions`: the loop
appends one `(gene, pval)` record per gene, then the clipping pass rewrites
every `pval > 1` to 1, then `padj` is computed by `bh_adjust` from the
clipped `pval` column.  `bh_adjust` lives in `_internal/util.py` (not under
`src/`, and the spec places multiple-testing correction out of scope), so the
adjustment is a parameter `bh`; the claims only concern which column it is
applied to. -/
def testResults (bh : List ℚ → List ℚ) (raw : List (ℕ × ℚ)) : TestTable :=
  let rows := raw.map (fun gp => ⟨gp.1, clipPval gp.2⟩)
  ⟨rows, bh (rows.map TestRow.pval)⟩

/-- The values persisted by `test_spatial_interactions` into the container:
per-gene kernel parameters, the size factors, the component count and the
anisotropy flag. -/
structure TestPersist where
  params : List ParamVec
  sizefactors : List ℚ
  ncomponents : ℤ
  ard : Bool

/-- The four writes at the end of `test_spatial_interactions`
(`adata.varm["svca"]`, `adata.obsm["svca_sizefactors"]`,
`adata.uns["svca_ncomponents"]`, `adata.uns["svca_ard"]`); every other slot
of the container is untouched. -/
def writeSvca (adata : AnnData) (p : TestPersist) : AnnData :=
  { adata with
    varm_svca := some p.params
    obsm_svca_sizefactors := some p.sizefactors
    uns_svca_ncomponents := some p.ncomponents
    uns_svca_ard := some p.ard }

/-- The tail of `test_spatial_interactions`: with `copy = true` the container
is copied, the four fields are written into the copy and the copy is
returned; with `copy = false` the four fields are written into the input
container and `none` is returned.  The first component of the result is the
state of the caller's container after the call, the second is the returned
value. -/
def testFinalize (adata : AnnData) (copy : Bool) (p : TestPersist) :
    AnnData × Option AnnData :=
  if copy then (adata, some (writeSvca adata p))
  else (writeSvca adata p, none)

/-- The `ncomponents` validation at the top of `test_spatial_interactions`:
a value below 1 is replaced by 1 and a warning is emitted (second component
of the result records whether the warning fired). -/
def test_ncomponents (n : ℤ) : ℤ × Bool :=
  if n < 1 then (1, true) else (n, false)

/-- The effective configuration computed by the branching prologue of
`fit_spatial_interactions`: which genes are fitted, which size factors,
component count and anisotropy flag are in force, whether kernel
length-scales and periods are trainable, and which warnings were emitted. -/
structure FitConfig where
  genes : List ℕ
  sizefactors : List ℚ
  ncomponents : ℤ
  ard : Bool
  trainable : Bool
  warnedNotFound : Bool
  warnedNcomponents : Bool
  warnedNoGenes : Bool

/-- The prologue of `fit_spatial_interactions` (lines 103-127): if all four
persisted SVCA fields are present in the container, the persisted size
factors, component count and anisotropy flag replace the corresponding
arguments and the kernel parameters are marked non-trainable (restricted
refit); if any field is missing, a warning is emitted and ab-initio fitting
is configured with trainable parameters, defaulting `genes` and
`sizefactors` from the container and clamping `ncomponents` to at least 1
with a warning.  `calc_sizefactors` lives in `_internal/util.py` (not under
`src/`; the spec treats normalization as an external collaborator), so it is
a parameter `calcSF`. -/
def fitSetup (adata : AnnData) (genes : Option (List ℕ)) (ncomponents : ℤ)
    (ard : Bool) (sizefactors : Option (List ℚ)) (calcSF : AnnData → List ℚ) :
    FitConfig :=
  match adata.varm_svca, adata.obsm_svca_sizefactors,
      adata.uns_svca_ncomponents, adata.uns_svca_ard with
  | some _, some sf, some nc, some a =>
    { genes := genes.getD adata.var_names
      sizefactors := sf
      ncomponents := nc
      ard := a
      trainable := false
      warnedNotFound := false
      warnedNcomponents := false
      warnedNoGenes := genes.isNone }
  | _, _, _, _ =>
    { genes := genes.getD adata.var_names
      sizefactors := sizefactors.getD (calcSF adata)
      ncomponents := if ncomponents < 1 then 1 else ncomponents
      ard := ard
      trainable := true
      warnedNotFound := true
      warnedNcomponents := ncomponents < 1
      warnedNoGenes := false }

/-- Modelled from the spec: `SVCA.fraction_variance` (`_internal/svca.py`,
not under `src/`) returns the three variance terms — intrinsic, interaction,
noise — each a nonnegative fitted squared coefficient scaled by the
trace-normalized magnitude of its kernel term, normalized so that the three
fractions sum to 1. -/
def fraction_variance (vIntrinsic vInteraction vNoise : ℚ) : ℚ × ℚ × ℚ :=
  let total := vIntrinsic + vInteraction + vNoise
  (vIntrinsic / total, vInteraction / total, vNoise / total)

/-- One row of the per-gene table returned by `fit_spatial_interactions`:
the three variance fractions produced by `fraction_variance`, plus the gene
identifier and the elapsed time. -/
structure FitRow where
  gene : ℕ
  time : ℚ
  intrinsic : ℚ
  environmental : ℚ
  noise : ℚ

/-- The loop body of `fit_spatial_interactions` assembling one result row:
the dictionary returned by `fraction_variance()._asdict()` updated with the
gene name and the elapsed time. -/
def mkFitRow (g : ℕ) (t : ℚ) (fv : ℚ × ℚ × ℚ) : FitRow :=
  ⟨g, t, fv.1, fv.2.1, fv.2.2⟩

/-- The structural (construction-time) data of the `SpectralMixture` kernel
built once by `fit_spatial_interactions` before the per-gene loop: the
component count, the anisotropy flag, and whether length-scales and periods
were marked trainable. -/
structure KernelStructure where
  ncomponents : ℤ
  ard : Bool
  lsTrainable : Bool

/-- The mutable parameter values of the model: the kernel parameter vector
(length-scales and periods of all components, assignable by name) and the
model's own variance coefficients (always trainable). -/
structure ModelParams where
  kernelParams : ParamVec
  sigmaCoeffs : List ℚ

/-- The state of the single `SVCA` model instance iterated over genes:
the kernel built at construction, the current parameter values, and the
mutable current-gene index. -/
structure ModelState where
  kernel : KernelStructure
  params : ModelParams
  currentgene : ℕ

/-- Modelled from the spec: `MultiScipyOptimizer` together with
`SVCA.optimize` (`_internal/optimizer.py` and `_internal/svca.py`, not under
`src/`) maximizes the profile REML over the model's currently trainable
variables only, mutating them in place; non-trainable parameters keep their
values.  The search outcome is abstracted by the functions `searchK` (new
kernel parameters, consulted only when they are trainable) and `searchC`
(new model coefficients). -/
def modelOptimize (searchK : ModelState → ParamVec)
    (searchC : ModelState → List ℚ) (st : ModelState) : ModelState :=
  { st with params :=
      { kernelParams :=
          if st.kernel.lsTrainable then searchK st else st.params.kernelParams
        sigmaCoeffs := searchC st } }

/-- The loop body of `fit_spatial_interactions` for one gene of index `i`:
set `model.currentgene = i`; in restricted-refit mode (kernel parameters
non-trainable) assign the persisted parameter values for gene `i` via
`multiple_assign`; then run `model.optimize()`. -/
def fitGeneStep (persisted : ℕ → ParamVec) (searchK : ModelState → ParamVec)
    (searchC : ModelState → List ℚ) (st : ModelState) (i : ℕ) : ModelState :=
  let st1 : ModelState := { st with currentgene := i }
  let st2 : ModelState :=
    if st.kernel.lsTrainable then st1
    else { st1 with params := { st1.params with kernelParams := persisted i } }
  modelOptimize searchK searchC st2

/-- The per-gene loop of `fit_spatial_interactions`, iterating the single
shared model state over the gene indices. -/
def fitLoop (persisted : ℕ → ParamVec) (searchK : ModelState → ParamVec)
    (searchC : ModelState → List ℚ) (st : ModelState) (genes : List ℕ) :
    ModelState :=
  genes.foldl (fitGeneStep persisted searchK searchC) st

/-- The error condition surfaced when every optimizer start fails for one
gene, carrying the gene's index. -/
structure OptimizationFailed where
  gene : ℕ

/-- Modelled from the spec: the per-gene work of the loops of
`test_spatial_interactions` and `fit_spatial_interactions` (score test or
full fit, `_internal/svca.py` and `_internal/optimizer.py` not under `src/`)
either produces a result row or surfaces an `OptimizationFailed` condition
for that gene; per the spec the condition is reported per gene and must not
abort the batch, so the step is modelled as returning `Except` and the loop
records each gene's outcome and continues. -/
def runBatch (step : ℕ → Except OptimizationFailed FitRow) :
    List ℕ → List (Except OptimizationFailed FitRow)
  | [] => []
  | g :: gs => step g :: runBatch step gs

/-- Initialization record of one `Spectral` kernel component, as configured
by the entry points of `svca.py`: initial parameter values, trainability
flags, and the `(low, high)` bounds of the Sigmoid transform explicitly
assigned by the entry point to the length-scales and periods (`none` when
the entry point assigns no transform and the constructor's internal default
is left in place). -/
structure KernelInit where
  varianceInit : ℝ
  varianceTrainable : Bool
  lengthscalesInit : List ℝ
  periodsInit : List ℝ
  lsTrainable : Bool
  periodsTrainable : Bool
  lsBounds : Option (ℝ × ℝ)
  periodBounds : Option (ℝ × ℝ)

/-- Fallback component used as the default of list lookups. -/
noncomputable def defaultKernelInit : KernelInit :=
  ⟨0, false, [], [], false, false, none, none⟩

/-- The value at position `k` of `np.geomspace(a, b, n)` for positive `a`,
`b`: the geometric interpolation `a * (b / a) ^ (k / (n - 1))` (for `n = 1`
the exponent is `0 / 0 = 0`, so the single value is `a`, as numpy returns). -/
noncomputable def geomspaceVal (a b : ℝ) (n k : ℕ) : ℝ :=
  a * (b / a) ^ ((k : ℝ) / ((n : ℝ) - 1))

/-- The kernel components built by `test_spatial_interactions` (lines 40-58):
one `Spectral` component per geomspace point between `l_min` and `l_max`,
variance fixed at 1 and non-trainable, length-scales initialized at the
geomspace point (replicated over the `dim` spatial dimensions when `ard`),
periods initialized at `l_max`, and a Sigmoid transform with bounds
`(0.5 * l_min, 2 * l_max)` assigned to both length-scales and periods. -/
noncomputable def testKernels (l_min l_max : ℝ) (nc : ℕ) (ard : Bool) (dim : ℕ) :
    List KernelInit :=
  (List.range nc).map fun k =>
    let l := geomspaceVal l_min l_max nc k
    { varianceInit := 1
      varianceTrainable := false
      lengthscalesInit := if ard then List.replicate dim l else [l]
      periodsInit := if ard then List.replicate dim l_max else [l_max]
      lsTrainable := true
      periodsTrainable := true
      lsBounds := some (0.5 * l_min, 2 * l_max)
      periodBounds := some (0.5 * l_min, 2 * l_max) }

/-- The kernel components built by `fit_spatial_interactions` (lines
129-140): one `Spectral` component per mixture component with length-scales
and periods initialized at 1 (replicated over the `dim` spatial dimensions
when `ard`), variance non-trainable, length-scales and periods trainable
exactly when `trainable`, and no Sigmoid transform assigned by the entry
point (this code path computes no distance cache and no `l_min`/`l_max`
bounds at all).  The variance initial value 1 comes from the `Spectral`
constructor's default (`_internal/sm_kernel.py`, not under `src/`); it is
irrelevant to the claims. -/
noncomputable def fitKernels (nc : ℕ) (ard : Bool) (dim : ℕ) (trainable : Bool) :
    List KernelInit :=
  (List.range nc).map fun _ =>
    { varianceInit := 1
      varianceTrainable := false
      lengthscalesInit := if ard then List.replicate dim 1 else [1]
      periodsInit := if ard then List.replicate dim 1 else [1]
      lsTrainable := trainable
      periodsTrainable := trainable
      lsBounds := none
      periodBounds := none }

/-- The logistic function underlying `tfp.bijectors.Sigmoid`. -/
noncomputable def sigmoid (x : ℝ) : ℝ := 1 / (1 + Real.exp (-x))

/-- The two-bound Sigmoid bijector `tfp.bijectors.Sigmoid(low, high)`
assigned by `test_spatial_interactions` to length-scales and periods:
`low + (high - low) * sigmoid x`. -/
noncomputable def sigmoidTransform (low high x : ℝ) : ℝ := low + (high - low) * sigmoid x

/-- `np.searchsorted(var_names, g, sorter=idx)` with the default left side:
the number of entries of the sorted view `var_names[idx]` that are strictly
smaller than `g`, which is the leftmost insertion position of `g` in the
sorted view. -/
def searchsorted_left (names idx : List ℕ) (g : ℕ) : ℕ :=
  (idx.map (fun j => names.getD j 0)).countP (fun x => decide (x < g))

/-- The column-index lookup of `fit_spatial_interactions` (lines 146-147):
`idx = np.argsort(var_names); idx[np.searchsorted(var_names, g, sorter=idx)]`
for one requested gene `g`. -/
def gene_column (names idx : List ℕ) (g : ℕ) : ℕ :=
  idx.getD (searchsorted_left names idx g) 0

/-- Container with all four persisted SVCA fields present (persisted
component count 2), as left behind by a prior `test_spatial_interactions`
run over two genes. -/
def refitExample : AnnData :=
  { var_names := [0, 1]
    varm_svca := some [[0], [0]]
    obsm_svca_sizefactors := some [1, 1]
    uns_svca_ncomponents := some 2
    uns_svca_ard := some false
    rest := 0 }

/-- Container with no persisted SVCA state. -/
def abinitExample : AnnData :=
  { var_names := [0, 1]
    varm_svca := none
    obsm_svca_sizefactors := none
    uns_svca_ncomponents := none
    uns_svca_ard := none
    rest := 0 }

/-- Stand-in for the external size-factor computation in concrete runs. -/
def zeroSF : AnnData → List ℚ := fun _ => []

/-- A per-gene step whose optimization fails for gene 1 only. -/
def stepExample : ℕ → Except OptimizationFailed FitRow :=
  fun g => if g = 1 then .error ⟨1⟩ else .ok ⟨g, 0, 1, 0, 0⟩

lemma getD_map_of_lt {α β : Type} (f : α → β) (l : List α) (j : ℕ)
    (hj : j < l.length) (d : α) (d2 : β) :
    (l.map f).getD j d2 = f (l.getD j d) := by
  rw [List.getD_eq_getElem _ _ (by simpa using hj), List.getD_eq_getElem _ _ hj,
    List.getElem_map]

lemma getD_range_map {β : Type} (f : ℕ → β) (n k : ℕ) (hk : k < n) (d : β) :
    ((List.range n).map f).getD k d = f k := by
  rw [getD_map_of_lt f (List.range n) k (by simpa using hk) 0 d]
  congr 1
  rw [List.getD_eq_getElem _ _ (by simpa using hk)]
  exact List.getElem_range k (by simpa using hk)

lemma runBatch_length (step : ℕ → Except OptimizationFailed FitRow)
    (genes : List ℕ) : (runBatch step genes).length = genes.length := by
  induction genes with
  | nil => rfl
  | cons g gs ih => simp [runBatch, ih]

lemma runBatch_getD (step : ℕ → Except OptimizationFailed FitRow)
    (genes : List ℕ) (j : ℕ) (d : Except OptimizationFailed FitRow)
    (hj : j < genes.length) :
    (runBatch step genes).getD j d = step (genes.getD j 0) := by
  induction genes generalizing j with
  | nil => simp at hj
  | cons g gs ih =>
    cases j with
    | zero => rfl
    | succ j =>
      simp only [runBatch, List.getD_cons_succ]
      exact ih j (by simpa using hj)

lemma fitSetup_missing (adata : AnnData) (gs : Option (List ℕ)) (n : ℤ)
    (ard : Bool) (sfArg : Option (List ℚ)) (calcSF : AnnData → List ℚ)
    (h : adata.varm_svca = none ∨ adata.obsm_svca_sizefactors = none ∨
      adata.uns_svca_ncomponents = none ∨ adata.uns_svca_ard = none) :
    fitSetup adata gs n ard sfArg calcSF =
      { genes := gs.getD adata.var_names
        sizefactors := sfArg.getD (calcSF adata)
        ncomponents := if n < 1 then 1 else n
        ard := ard
        trainable := true
        warnedNotFound := true
        warnedNcomponents := decide (n < 1)
        warnedNoGenes := false } := by
  obtain ⟨av, avm, ao, an, aa, ar⟩ := adata
  rcases avm with _ | x <;> rcases ao with _ | y <;> rcases an with _ | z <;>
    rcases aa with _ | w <;> simp_all [fitSetup]

lemma fitSetup_present (adata : AnnData) (pv : List ParamVec) (sf : List ℚ)
    (nc : ℤ) (ad : Bool)
    (h1 : adata.varm_svca = some pv) (h2 : adata.obsm_svca_sizefactors = some sf)
    (h3 : adata.uns_svca_ncomponents = some nc) (h4 : adata.uns_svca_ard = some ad)
    (gs : Option (List ℕ)) (n : ℤ) (ard : Bool) (sfArg : Option (List ℚ))
    (calcSF : AnnData → List ℚ) :
    fitSetup adata gs n ard sfArg calcSF =
      { genes := gs.getD adata.var_names
        sizefactors := sf
        ncomponents := nc
        ard := ad
        trainable := false
        warnedNotFound := false
        warnedNcomponents := false
        warnedNoGenes := gs.isNone } := by
  obtain ⟨av, avm, ao, an, aa, ar⟩ := adata
  simp_all [fitSetup]

/-- C1: In the results table of `test_spatial_interactions`, every p-value
greater than 1 produced by the survival-function evaluator is rewritten to
exactly 1 by the clipping pass, the `padj` column is computed from the
clipped `pval` column, and hence every p-value in the output table is at
most 1. -/
theorem c1_pval_clip (bh : List ℚ → List ℚ) (raw : List (ℕ × ℚ)) (j : ℕ)
    (hj : j < raw.length) (hgt : 1 < (raw.getD j (0, 0)).2) :
    (∀ r ∈ (testResults bh raw).rows, r.pval ≤ 1) ∧
    (testResults bh raw).padj = bh ((testResults bh raw).rows.map TestRow.pval) ∧
    ((testResults bh raw).rows.getD j ⟨0, 0⟩).pval = 1 := by
  refine ⟨?_, rfl, ?_⟩
  · intro r hr
    simp only [testResults, List.mem_map] at hr
    obtain ⟨gp, -, rfl⟩ := hr
    show clipPval gp.2 ≤ 1
    by_cases h : 1 < gp.2
    · simp [clipPval, h]
    · simp only [clipPval, if_neg h]
      exact le_of_not_lt h
  · have hrows : (testResults bh raw).rows =
        raw.map (fun gp => (⟨gp.1, clipPval gp.2⟩ : TestRow)) := rfl
    rw [hrows, getD_map_of_lt (fun gp => (⟨gp.1, clipPval gp.2⟩ : TestRow))
      raw j hj (0, 0) ⟨0, 0⟩]
    show clipPval (raw.getD j (0, 0)).2 = 1
    exact if_pos hgt

/-- Concrete run of the C1 clipping theorem: a raw p-value of 3/2 appears in
the results table as exactly 1. -/
theorem c1_pval_clip_witness :
    ((testResults id [(0, (3 : ℚ) / 2)]).rows.getD 0 ⟨0, 0⟩).pval = 1 :=
  (c1_pval_clip id [(0, (3 : ℚ) / 2)] 0 (by decide)
    (by norm_num [List.getD_cons_zero])).2.2

/-- C2: the three components of `fraction_variance` (intrinsic, interaction,
noise) are each nonnegative and sum to 1 within 1e-6, and they are exactly
the values placed in the per-gene row of the table returned by
`fit_spatial_interactions`. -/
theorem c2_fraction_variance (vI vE vN : ℚ) (hI : 0 ≤ vI) (hE : 0 ≤ vE)
    (hN : 0 ≤ vN) (hpos : 0 < vI + vE + vN) (g : ℕ) (t : ℚ) :
    0 ≤ (fraction_variance vI vE vN).1 ∧
    0 ≤ (fraction_variance vI vE vN).2.1 ∧
    0 ≤ (fraction_variance vI vE vN).2.2 ∧
    |(fraction_variance vI vE vN).1 + (fraction_variance vI vE vN).2.1 +
        (fraction_variance vI vE vN).2.2 - 1| ≤ 1 / 1000000 ∧
    (mkFitRow g t (fraction_variance vI vE vN)).intrinsic =
      (fraction_variance vI vE vN).1 ∧
    (mkFitRow g t (fraction_variance vI vE vN)).environmental =
      (fraction_variance vI vE vN).2.1 ∧
    (mkFitRow g t (fraction_variance vI vE vN)).noise =
      (fraction_variance vI vE vN).2.2 := by
  have htot : vI + vE + vN ≠ 0 := ne_of_gt hpos
  have h1 : (fraction_variance vI vE vN).1 = vI / (vI + vE + vN) := rfl
  have h2 : (fraction_variance vI vE vN).2.1 = vE / (vI + vE + vN) := rfl
  have h3 : (fraction_variance vI vE vN).2.2 = vN / (vI + vE + vN) := rfl
  refine ⟨?_, ?_, ?_, ?_, rfl, rfl, rfl⟩
  · rw [h1]; exact div_nonneg hI hpos.le
  · rw [h2]; exact div_nonneg hE hpos.le
  · rw [h3]; exact div_nonneg hN hpos.le
  · rw [h1, h2, h3, div_add_div_same, div_add_div_same, div_self htot]
    norm_num

/-- Concrete run of the C2 theorem at variance magnitudes (1, 2, 3). -/
theorem c2_fraction_variance_witness :
    0 ≤ (fraction_variance 1 2 3).1 ∧
    0 ≤ (fraction_variance 1 2 3).2.1 ∧
    0 ≤ (fraction_variance 1 2 3).2.2 ∧
    |(fraction_variance 1 2 3).1 + (fraction_variance 1 2 3).2.1 +
        (fraction_variance 1 2 3).2.2 - 1| ≤ 1 / 1000000 ∧
    (mkFitRow 0 0 (fraction_variance 1 2 3)).intrinsic =
      (fraction_variance 1 2 3).1 ∧
    (mkFitRow 0 0 (fraction_variance 1 2 3)).environmental =
      (fraction_variance 1 2 3).2.1 ∧
    (mkFitRow 0 0 (fraction_variance 1 2 3)).noise =
      (fraction_variance 1 2 3).2.2 :=
  c2_fraction_variance 1 2 3 (by norm_num) (by norm_num) (by norm_num)
    (by norm_num) 0 0

/-- C3: a per-gene `OptimizationFailed` outcome is recorded for that gene in
the batch results but does not halt the iteration: the batch result has one
entry per gene and the entry of every gene equals its own step's outcome,
unaffected by failures of other genes. -/
theorem c3_failure_does_not_halt (step : ℕ → Except OptimizationFailed FitRow)
    (genes : List ℕ) (k : ℕ) (e : OptimizationFailed)
    (hk : k < genes.length) (hfail : step (genes.getD k 0) = .error e) :
    (runBatch step genes).length = genes.length ∧
    (runBatch step genes).getD k (.error ⟨0⟩) = .error e ∧
    ∀ j, j < genes.length →
      (runBatch step genes).getD j (.error ⟨0⟩) = step (genes.getD j 0) := by
  refine ⟨runBatch_length step genes, ?_, fun j hj => runBatch_getD step genes j _ hj⟩
  rw [runBatch_getD step genes k _ hk, hfail]

/-- Concrete run of C3: gene 1's optimization fails, yet the batch still
produces gene 2's result, equal to its own step outcome. -/
theorem c3_failure_does_not_halt_witness :
    (runBatch stepExample [0, 1, 2]).getD 2 (.error ⟨0⟩) = stepExample 2 :=
  (c3_failure_does_not_halt stepExample [0, 1, 2] 1 ⟨1⟩ (by decide) rfl).2.2
    2 (by decide)

/-- C4 (amended): `test_spatial_interactions` always, and
`fit_spatial_interactions` in ab-initio mode, replace an `ncomponents`
argument below 1 by 1 and emit a warning, never raising an error; but in
restricted-refit mode `fit_spatial_interactions` ignores the `ncomponents`
argument entirely, replacing it by the persisted component count without any
`ncomponents` warning. -/
theorem c4_ncomponents_policy (n : ℤ) (hn : n < 1)
    (a : AnnData) (ha : a.varm_svca = none)
    (b : AnnData) (pv : List ParamVec) (sf : List ℚ) (nc : ℤ) (ad : Bool)
    (hb1 : b.varm_svca = some pv) (hb2 : b.obsm_svca_sizefactors = some sf)
    (hb3 : b.uns_svca_ncomponents = some nc) (hb4 : b.uns_svca_ard = some ad)
    (gs : Option (List ℕ)) (ard : Bool) (sfArg : Option (List ℚ))
    (calcSF : AnnData → List ℚ) :
    test_ncomponents n = (1, true) ∧
    (fitSetup a gs n ard sfArg calcSF).ncomponents = 1 ∧
    (fitSetup a gs n ard sfArg calcSF).warnedNcomponents = true ∧
    (fitSetup b gs n ard sfArg calcSF).ncomponents = nc ∧
    (fitSetup b gs n ard sfArg calcSF).warnedNcomponents = false := by
  rw [fitSetup_missing a gs n ard sfArg calcSF (Or.inl ha),
    fitSetup_present b pv sf nc ad hb1 hb2 hb3 hb4 gs n ard sfArg calcSF]
  simp [test_ncomponents, hn]

/-- Concrete run of the amended C4 theorem: argument `ncomponents = 0` is
clamped to 1 with a warning by `test_spatial_interactions` and by ab-initio
`fit_spatial_interactions`, but refit mode uses the persisted count 2 and
warns nothing. -/
theorem c4_ncomponents_policy_witness :
    test_ncomponents 0 = (1, true) ∧
    (fitSetup abinitExample (some [0]) 0 false none zeroSF).ncomponents = 1 ∧
    (fitSetup abinitExample (some [0]) 0 false none zeroSF).warnedNcomponents = true ∧
    (fitSetup refitExample (some [0]) 0 false none zeroSF).ncomponents = 2 ∧
    (fitSetup refitExample (some [0]) 0 false none zeroSF).warnedNcomponents = false :=
  c4_ncomponents_policy 0 (by decide) abinitExample rfl refitExample
    [[0], [0]] [1, 1] 2 false rfl rfl rfl rfl (some [0]) false none zeroSF

/-- C4 counterexample: calling `fit_spatial_interactions` with
`ncomponents = 0` on a container holding persisted SVCA state neither
corrects the value to 1 nor emits an `ncomponents` warning — the persisted
count (2) is used instead, refuting the claim as stated for this call. -/
theorem c4_ncomponents_counterexample :
    ¬((fitSetup refitExample (some [0]) 0 false none zeroSF).ncomponents = 1 ∧
      (fitSetup refitExample (some [0]) 0 false none zeroSF).warnedNcomponents = true) := by
  decide

/-- C7: with all four persisted fields present, `fit_spatial_interactions`
runs in restricted-refit mode — size factors, component count and anisotropy
flag come from the persisted state rather than the arguments, the kernel's
length-scales and periods are built non-trainable, and the per-gene step
assigns the persisted parameter values for the gene, which the optimizer
(restricted to trainable variables) leaves untouched; with any persisted
field missing it warns and falls back to ab-initio fitting with trainable
parameters. -/
theorem c7_restricted_refit (a : AnnData) (pv : List ParamVec) (sf : List ℚ)
    (nc : ℤ) (ad : Bool)
    (h1 : a.varm_svca = some pv) (h2 : a.obsm_svca_sizefactors = some sf)
    (h3 : a.uns_svca_ncomponents = some nc) (h4 : a.uns_svca_ard = some ad)
    (gs : Option (List ℕ)) (ncArg : ℤ) (ardArg : Bool)
    (sfArg : Option (List ℚ)) (calcSF : AnnData → List ℚ)
    (b : AnnData)
    (hb : b.varm_svca = none ∨ b.obsm_svca_sizefactors = none ∨
      b.uns_svca_ncomponents = none ∨ b.uns_svca_ard = none)
    (persisted : ℕ → ParamVec) (searchK : ModelState → ParamVec)
    (searchC : ModelState → List ℚ) (st : ModelState) (i : ℕ)
    (hnt : st.kernel.lsTrainable = false)
    (ncK dimK kk : ℕ) (ardK : Bool) (hkk : kk < ncK) :
    (fitSetup a gs ncArg ardArg sfArg calcSF).sizefactors = sf ∧
    (fitSetup a gs ncArg ardArg sfArg calcSF).ncomponents = nc ∧
    (fitSetup a gs ncArg ardArg sfArg calcSF).ard = ad ∧
    (fitSetup a gs ncArg ardArg sfArg calcSF).trainable = false ∧
    ((fitKernels ncK ardK dimK false).getD kk defaultKernelInit).lsTrainable = false ∧
    ((fitKernels ncK ardK dimK false).getD kk defaultKernelInit).periodsTrainable = false ∧
    (fitGeneStep persisted searchK searchC st i).params.kernelParams = persisted i ∧
    (fitGeneStep persisted searchK searchC st i).currentgene = i ∧
    (fitSetup b gs ncArg ardArg sfArg calcSF).trainable = true ∧
    (fitSetup b gs ncArg ardArg sfArg calcSF).warnedNotFound = true := by
  rw [fitSetup_present a pv sf nc ad h1 h2 h3 h4 gs ncArg ardArg sfArg calcSF,
    fitSetup_missing b gs ncArg ardArg sfArg calcSF hb]
  have hker : ((fitKernels ncK ardK dimK false).getD kk defaultKernelInit) =
      { varianceInit := 1
        varianceTrainable := false
        lengthscalesInit := if ardK then List.replicate dimK 1 else [1]
        periodsInit := if ardK then List.replicate dimK 1 else [1]
        lsTrainable := false
        periodsTrainable := false
        lsBounds := none
        periodBounds := none } :=
    getD_range_map _ ncK kk hkk _
  refine ⟨rfl, rfl, rfl, rfl, by rw [hker], by rw [hker], ?_, ?_, rfl, rfl⟩
  · simp only [fitGeneStep, modelOptimize, hnt, if_false, Bool.false_eq_true]
  · simp only [fitGeneStep, modelOptimize, hnt, if_false, Bool.false_eq_true]

/-- C8: within one call of `fit_spatial_interactions` the kernel and model
are constructed once before the per-gene loop; one step of the loop, and the
whole loop over any gene list, leave the model's kernel exactly as
constructed — only the current-gene index and parameter values change. -/
theorem c8_kernel_built_once (persisted : ℕ → ParamVec)
    (searchK : ModelState → ParamVec) (searchC : ModelState → List ℚ)
    (st : ModelState) (i : ℕ) (genes : List ℕ) :
    (fitGeneStep persisted searchK searchC st i).kernel = st.kernel ∧
    (fitLoop persisted searchK searchC st genes).kernel = st.kernel := by
  have hstep : ∀ (s : ModelState) (j : ℕ),
      (fitGeneStep persisted searchK searchC s j).kernel = s.kernel := by
    intro s j
    simp only [fitGeneStep, modelOptimize]
    split <;> rfl
  refine ⟨hstep st i, ?_⟩
  induction genes generalizing st with
  | nil => rfl
  | cons g gs ih =>
    have hcons : fitLoop persisted searchK searchC st (g :: gs) =
        fitLoop persisted searchK searchC
          (fitGeneStep persisted searchK searchC st g) gs := rfl
    rw [hcons, ih, hstep]

/-- C9: `test_spatial_interactions` with `copy = true` returns a modified
copy and leaves the input container unchanged; with `copy = false` it
returns `none` and writes exactly the four persisted fields into the input,
modifying nothing else (gene names and every other slot preserved). -/
theorem c9_copy_semantics (a : AnnData) (p : TestPersist) :
    (testFinalize a true p).1 = a ∧
    (testFinalize a true p).2 = some (writeSvca a p) ∧
    (testFinalize a false p).1 = writeSvca a p ∧
    (testFinalize a false p).2 = none ∧
    (writeSvca a p).varm_svca = some p.params ∧
    (writeSvca a p).obsm_svca_sizefactors = some p.sizefactors ∧
    (writeSvca a p).uns_svca_ncomponents = some p.ncomponents ∧
    (writeSvca a p).uns_svca_ard = some p.ard ∧
    (writeSvca a p).var_names = a.var_names ∧
    (writeSvca a p).rest = a.rest :=
  ⟨rfl, rfl, rfl, rfl, rfl, rfl, rfl, rfl, rfl, rfl⟩

lemma sigmoid_mem_Ioo (x : ℝ) : sigmoid x ∈ Set.Ioo (0 : ℝ) 1 := by
  have hexp : 0 < Real.exp (-x) := Real.exp_pos _
  constructor
  · exact div_pos one_pos (by linarith)
  · rw [sigmoid, div_lt_one (by linarith)]
    linarith

lemma sigmoid_lt_sigmoid {x y : ℝ} (hxy : x < y) : sigmoid x < sigmoid y := by
  have h1 : Real.exp (-y) < Real.exp (-x) := Real.exp_lt_exp.mpr (by linarith)
  have h2 : 0 < 1 + Real.exp (-y) := by
    have := Real.exp_pos (-y); linarith
  exact one_div_lt_one_div_of_lt h2 (by linarith)

lemma sigmoidTransform_mem_Ioo (low high x : ℝ) (h : low < high) :
    sigmoidTransform low high x ∈ Set.Ioo low high := by
  obtain ⟨hs0, hs1⟩ := sigmoid_mem_Ioo x
  have hlow : 0 < (high - low) * sigmoid x := mul_pos (by linarith) hs0
  have hhigh : (high - low) * sigmoid x < (high - low) * 1 :=
    mul_lt_mul_of_pos_left hs1 (by linarith)
  constructor
  · simp only [sigmoidTransform]; linarith
  · simp only [sigmoidTransform]; linarith

lemma sigmoidTransform_lt (low high : ℝ) (h : low < high) {x y : ℝ}
    (hxy : x < y) :
    sigmoidTransform low high x < sigmoidTransform low high y := by
  have hs := sigmoid_lt_sigmoid hxy
  have := mul_lt_mul_of_pos_left hs (by linarith : (0 : ℝ) < high - low)
  simp only [sigmoidTransform]; linarith

lemma geomspaceVal_mem (l_min l_max : ℝ) (hpos : 0 < l_min)
    (hle : l_min ≤ l_max) (n k : ℕ) (hk : k < n) :
    l_min ≤ geomspaceVal l_min l_max n k ∧
    geomspaceVal l_min l_max n k ≤ l_max := by
  have hr : 1 ≤ l_max / l_min := (one_le_div hpos).mpr hle
  have ht0 : 0 ≤ (k : ℝ) / ((n : ℝ) - 1) := by
    by_cases hn : n = 1
    · subst hn
      interval_cases k
      norm_num
    · have hn2 : 2 ≤ n := by omega
      have : (0 : ℝ) < (n : ℝ) - 1 := by
        have : (2 : ℝ) ≤ (n : ℝ) := by exact_mod_cast hn2
        linarith
      positivity
  have ht1 : (k : ℝ) / ((n : ℝ) - 1) ≤ 1 := by
    by_cases hn : n = 1
    · subst hn
      interval_cases k
      norm_num
    · have hn2 : 2 ≤ n := by omega
      have hd : (0 : ℝ) < (n : ℝ) - 1 := by
        have : (2 : ℝ) ≤ (n : ℝ) := by exact_mod_cast hn2
        linarith
      rw [div_le_one hd]
      have : (k : ℝ) + 1 ≤ (n : ℝ) := by exact_mod_cast Nat.succ_le_of_lt hk
      linarith
  have hlo : 1 ≤ (l_max / l_min) ^ ((k : ℝ) / ((n : ℝ) - 1)) := by
    have := Real.rpow_le_rpow_of_exponent_le hr ht0
    rwa [Real.rpow_zero] at this
  have hhi : (l_max / l_min) ^ ((k : ℝ) / ((n : ℝ) - 1)) ≤ l_max / l_min := by
    have := Real.rpow_le_rpow_of_exponent_le hr ht1
    rwa [Real.rpow_one] at this
  constructor
  · have := mul_le_mul_of_nonneg_left hlo hpos.le
    simpa [geomspaceVal] using this
  · have h2 := mul_le_mul_of_nonneg_left hhi hpos.le
    have heq : l_min * (l_max / l_min) = l_max := by
      field_simp
    simp only [geomspaceVal]
    calc l_min * (l_max / l_min) ^ ((k : ℝ) / ((n : ℝ) - 1)) ≤
        l_min * (l_max / l_min) := h2
      _ = l_max := heq

lemma geomspaceVal_ratio (l_min l_max : ℝ) (hpos : 0 < l_min)
    (hmax : 0 < l_max) (n j : ℕ) :
    geomspaceVal l_min l_max n (j + 1) =
      geomspaceVal l_min l_max n j *
        (l_max / l_min) ^ ((1 : ℝ) / ((n : ℝ) - 1)) := by
  have hrpos : 0 < l_max / l_min := div_pos hmax hpos
  have hexp : ((j + 1 : ℕ) : ℝ) / ((n : ℝ) - 1) =
      (j : ℝ) / ((n : ℝ) - 1) + 1 / ((n : ℝ) - 1) := by
    push_cast
    ring
  simp only [geomspaceVal]
  rw [hexp, Real.rpow_add hrpos]
  ring

/-- C5 (amended): in `test_spatial_interactions` the mixture components'
length-scales are initialized at the geometrically spaced values between
`l_min` and `l_max` (each value lies in `[l_min, l_max]` and consecutive
values share the common ratio `(l_max / l_min) ^ (1 / (ncomponents - 1))`);
in `fit_spatial_interactions`, however, length-scales are initialized at 1,
not at geometrically spaced values. -/
theorem c5_geomspace_init (l_min l_max : ℝ) (hpos : 0 < l_min)
    (hle : l_min ≤ l_max) (nc dim k j : ℕ) (ard : Bool) (hk : k < nc) :
    ((testKernels l_min l_max nc ard dim).getD k defaultKernelInit).lengthscalesInit =
      (if ard then List.replicate dim (geomspaceVal l_min l_max nc k)
        else [geomspaceVal l_min l_max nc k]) ∧
    l_min ≤ geomspaceVal l_min l_max nc k ∧
    geomspaceVal l_min l_max nc k ≤ l_max ∧
    geomspaceVal l_min l_max nc (j + 1) =
      geomspaceVal l_min l_max nc j *
        (l_max / l_min) ^ ((1 : ℝ) / ((nc : ℝ) - 1)) ∧
    ((fitKernels nc ard dim true).getD k defaultKernelInit).lengthscalesInit =
      (if ard then List.replicate dim 1 else [1]) := by
  obtain ⟨hlo, hhi⟩ := geomspaceVal_mem l_min l_max hpos hle nc k hk
  refine ⟨?_, hlo, hhi, geomspaceVal_ratio l_min l_max hpos (by linarith) nc j, ?_⟩
  · rw [testKernels, getD_range_map _ nc k hk]
  · rw [fitKernels, getD_range_map _ nc k hk]

/-- Concrete run of the amended C5 theorem with `l_min = 1`, `l_max = 2`
and two mixture components. -/
theorem c5_geomspace_init_witness :
    ((testKernels 1 2 2 false 2).getD 0 defaultKernelInit).lengthscalesInit =
      [geomspaceVal 1 2 2 0] ∧
    (1 : ℝ) ≤ geomspaceVal 1 2 2 0 ∧
    geomspaceVal 1 2 2 0 ≤ 2 ∧
    geomspaceVal 1 2 2 1 =
      geomspaceVal 1 2 2 0 * ((2 : ℝ) / 1) ^ ((1 : ℝ) / ((2 : ℕ) - 1 : ℝ)) ∧
    ((fitKernels 2 false 2 true).getD 0 defaultKernelInit).lengthscalesInit =
      [1] := by
  have h := c5_geomspace_init 1 2 zero_lt_one one_le_two 2 2 0 0 false
    (by decide)
  simpa using h

/-- C5 counterexample: on a dataset with distance bounds `l_min = 2`,
`l_max = 8` and one mixture component, `fit_spatial_interactions`
initializes the component's length-scale at 1, while the geometrically
spaced value is `geomspaceVal 2 8 1 0 = 2`; the claim as stated is false for
`fit_spatial_interactions`. -/
theorem c5_geomspace_counterexample :
    ((fitKernels 1 false 2 true).getD 0 defaultKernelInit).lengthscalesInit ≠
      [geomspaceVal 2 8 1 0] := by
  have hfit : ((fitKernels 1 false 2 true).getD 0
      defaultKernelInit).lengthscalesInit = [(1 : ℝ)] := by
    rw [fitKernels, getD_range_map _ 1 0 (by decide)]
    rfl
  have hg : geomspaceVal 2 8 1 0 = 2 := by
    simp [geomspaceVal]
  rw [hfit, hg]
  intro hcontra
  have h12 : (1 : ℝ) = 2 := by
    simp at hcontra
  norm_num at h12

/-- C6 (amended): the kernel components constructed by
`test_spatial_interactions` carry on both length-scales and periods the
Sigmoid transform with bounds `low = 0.5 * l_min` and `high = 2 * l_max`;
the transform is strictly monotonic and its value always lies strictly
inside `[low, high]`.  The components constructed by
`fit_spatial_interactions` are assigned no such transform (that entry point
never computes the pairwise-distance bounds). -/
theorem c6_sigmoid_bounds (l_min l_max : ℝ) (hpos : 0 < l_min)
    (hle : l_min ≤ l_max) (nc dim k : ℕ) (ard : Bool) (hk : k < nc)
    (x y : ℝ) (hxy : x < y) :
    ((testKernels l_min l_max nc ard dim).getD k defaultKernelInit).lsBounds =
      some (0.5 * l_min, 2 * l_max) ∧
    ((testKernels l_min l_max nc ard dim).getD k defaultKernelInit).periodBounds =
      some (0.5 * l_min, 2 * l_max) ∧
    sigmoidTransform (0.5 * l_min) (2 * l_max) x ∈
      Set.Ioo (0.5 * l_min) (2 * l_max) ∧
    sigmoidTransform (0.5 * l_min) (2 * l_max) x <
      sigmoidTransform (0.5 * l_min) (2 * l_max) y ∧
    ((fitKernels nc ard dim true).getD k defaultKernelInit).lsBounds = none ∧
    ((fitKernels nc ard dim true).getD k defaultKernelInit).periodBounds = none := by
  have hlh : 0.5 * l_min < 2 * l_max := by linarith
  refine ⟨?_, ?_, sigmoidTransform_mem_Ioo _ _ x hlh,
    sigmoidTransform_lt _ _ hlh hxy, ?_, ?_⟩
  · rw [testKernels, getD_range_map _ nc k hk]
  · rw [testKernels, getD_range_map _ nc k hk]
  · rw [fitKernels, getD_range_map _ nc k hk]
  · rw [fitKernels, getD_range_map _ nc k hk]

/-- Concrete run of the amended C6 theorem with `l_min = l_max = 1`. -/
theorem c6_sigmoid_bounds_witness :
    ((testKernels 1 1 1 false 2).getD 0 defaultKernelInit).lsBounds =
      some (0.5 * 1, 2 * 1) ∧
    ((testKernels 1 1 1 false 2).getD 0 defaultKernelInit).periodBounds =
      some (0.5 * 1, 2 * 1) ∧
    sigmoidTransform (0.5 * 1) (2 * 1) 0 ∈ Set.Ioo ((0.5 : ℝ) * 1) (2 * 1) ∧
    sigmoidTransform (0.5 * 1) (2 * 1) 0 < sigmoidTransform (0.5 * 1) (2 * 1) 1 ∧
    ((fitKernels 1 false 2 true).getD 0 defaultKernelInit).lsBounds = none ∧
    ((fitKernels 1 false 2 true).getD 0 defaultKernelInit).periodBounds = none :=
  c6_sigmoid_bounds 1 1 zero_lt_one (le_refl 1) 1 2 0 false (by decide)
    0 1 zero_lt_one

/-- C6 counterexample: on a dataset with distance bounds `l_min = 2` and
`l_max = 8`, the kernel component constructed by `fit_spatial_interactions`
carries no Sigmoid transform with the data-derived bounds
`(0.5 * 2, 2 * 8)`; the claim as stated is false for the components of
`fit_spatial_interactions`. -/
theorem c6_sigmoid_counterexample :
    ((fitKernels 1 false 2 true).getD 0 defaultKernelInit).lsBounds ≠
      some (0.5 * 2, 2 * 8) := by
  have hfit : ((fitKernels 1 false 2 true).getD 0 defaultKernelInit).lsBounds =
      none := by
    rw [fitKernels, getD_range_map _ 1 0 (by decide)]
  rw [hfit]
  simp

lemma sorted_countP_lt (S : List ℕ) (g : ℕ) (hs : S.Sorted (· ≤ ·))
    (hg : g ∈ S) :
    S.countP (fun x => decide (x < g)) < S.length ∧
    S.getD (S.countP (fun x => decide (x < g))) 0 = g := by
  induction S with
  | nil => simp at hg
  | cons a T ih =>
    rw [List.sorted_cons] at hs
    by_cases hag : a < g
    · have hgT : g ∈ T := by
        rcases List.mem_cons.mp hg with h | h
        · omega
        · exact h
      obtain ⟨ihlt, ihval⟩ := ih hs.2 hgT
      have hcount : (a :: T).countP (fun x => decide (x < g)) =
          T.countP (fun x => decide (x < g)) + 1 := by
        rw [List.countP_cons]
        simp [hag]
      rw [hcount]
      exact ⟨by simpa using Nat.succ_lt_succ ihlt, by
        rw [List.getD_cons_succ]; exact ihval⟩
    · have hTzero : T.countP (fun x => decide (x < g)) = 0 := by
        rw [List.countP_eq_zero]
        intro x hx
        simp only [decide_eq_true_eq]
        have hax : a ≤ x := hs.1 x hx
        omega
      have hcount : (a :: T).countP (fun x => decide (x < g)) = 0 := by
        rw [List.countP_cons, hTzero]
        simp [hag]
      rw [hcount]
      refine ⟨by simp, ?_⟩
      rw [List.getD_cons_zero]
      rcases List.mem_cons.mp hg with h | h
      · exact h.symm
      · have := hs.1 g h
        omega

/-- C10: when the requested gene `g` occurs in `var_names`, the column index
computed by the argsort/searchsorted lookup of `fit_spatial_interactions`
selects a column whose name is `g`.  The hypotheses are the contract of
`np.argsort`: `idx` arranges `var_names` into a sorted view that is a
permutation of `var_names`.  Nothing is claimed for absent gene names. -/
theorem c10_gene_lookup (names idx : List ℕ) (g : ℕ)
    (hsorted : (idx.map (fun j => names.getD j 0)).Sorted (· ≤ ·))
    (hperm : List.Perm (idx.map (fun j => names.getD j 0)) names)
    (hg : g ∈ names) :
    names.getD (gene_column names idx g) 0 = g := by
  set S := idx.map (fun j => names.getD j 0) with hS
  have hgS : g ∈ S := hperm.mem_iff.mpr hg
  obtain ⟨hlt, hval⟩ := sorted_countP_lt S g hsorted hgS
  have hlen : S.length = idx.length := by
    rw [hS]; exact List.length_map _ _
  have hcidx : S.countP (fun x => decide (x < g)) < idx.length := hlen ▸ hlt
  have hmap : S.getD (S.countP (fun x => decide (x < g))) 0 =
      names.getD (idx.getD (S.countP (fun x => decide (x < g))) 0) 0 := by
    rw [hS]
    exact getD_map_of_lt _ idx _ hcidx 0 0
  have hc : searchsorted_left names idx g = S.countP (fun x => decide (x < g)) :=
    rfl
  rw [gene_column, hc, ← hmap, hval]

/-- Concrete run of C10: gene names `[5, 3, 9]`, argsort `[1, 0, 2]`,
requested gene 9 — the lookup selects column 2, whose name is 9. -/
theorem c10_gene_lookup_witness :
    [5, 3, 9].getD (gene_column [5, 3, 9] [1, 0, 2] 9) 0 = 9 :=
  c10_gene_lookup [5, 3, 9] [1, 0, 2] 9 (by decide) (by decide) (by decide)

/-- Model state in restricted-refit mode: kernel length-scales and periods
non-trainable. -/
def refitState : ModelState :=
  { kernel := { ncomponents := 2, ard := false, lsTrainable := false }
    params := { kernelParams := [0], sigmaCoeffs := [1] }
    currentgene := 0 }

/-- Persisted per-gene parameter table used in concrete refit runs. -/
def persistedExample : ℕ → ParamVec := fun i => [(i : ℚ)]

/-- A concrete optimizer search outcome for the kernel parameters. -/
def searchKExample : ModelState → ParamVec := fun _ => [7]

/-- A concrete optimizer search outcome for the model coefficients. -/
def searchCExample : ModelState → List ℚ := fun _ => [2]

/-- Concrete run of the C7 theorem on `refitExample` (all four persisted
fields present, persisted count 2) and `abinitExample` (no persisted
state). -/
theorem c7_restricted_refit_witness :
    (fitSetup refitExample (some [0]) 0 false none zeroSF).sizefactors = [1, 1] ∧
    (fitSetup refitExample (some [0]) 0 false none zeroSF).ncomponents = 2 ∧
    (fitSetup refitExample (some [0]) 0 false none zeroSF).ard = false ∧
    (fitSetup refitExample (some [0]) 0 false none zeroSF).trainable = false ∧
    ((fitKernels 2 false 2 false).getD 0 defaultKernelInit).lsTrainable = false ∧
    ((fitKernels 2 false 2 false).getD 0 defaultKernelInit).periodsTrainable = false ∧
    (fitGeneStep persistedExample searchKExample searchCExample
      refitState 1).params.kernelParams = persistedExample 1 ∧
    (fitGeneStep persistedExample searchKExample searchCExample
      refitState 1).currentgene = 1 ∧
    (fitSetup abinitExample (some [0]) 0 false none zeroSF).trainable = true ∧
    (fitSetup abinitExample (some [0]) 0 false none zeroSF).warnedNotFound = true :=
  c7_restricted_refit refitExample [[0], [0]] [1, 1] 2 false rfl rfl rfl rfl
    (some [0]) 0 false none zeroSF abinitExample (Or.inl rfl)
    persistedExample searchKExample searchCExample refitState 1 rfl
    2 2 0 false (by decide)
